import Mathlib

/-!
Verification of the key-schedule known-answer-test (KAT) harness
(`src/openmls/src/schedule/kat_key_schedule.rs`) and of the TreeSync error
taxonomy (`src/openmls/src/treesync/errors.rs`) of this OpenMLS fork.

Byte strings are modelled as `List Nat` (hex encoding in the JSON vector
format is a bijection on byte strings and is abstracted away: every field of
the vector holds the raw bytes).  The cryptographic provider, the TLS codec
and the `KeySchedule` state machine live outside the excerpted sources, so
they are modelled from the spec as an abstract structure of deterministic
functions; the harness control flow is translated line by line from
`kat_key_schedule.rs`.
-/

namespace OpenMLS

/-- A byte string (hex-decoded contents of one JSON field). -/
abbrev Bytes := List Nat

/-- `GroupContext::new(group_id, epoch, tree_hash, confirmed_transcript_hash, &[])`:
the extensions argument is always the empty slice in this file, so it is
omitted.  The `epoch` is the u64 counter. -/
structure GroupCtx where
  group_id : Bytes
  epoch : Nat
  tree_hash : Bytes
  confirmed_transcript_hash : Bytes
deriving DecidableEq, Repr

/-- Modelled from the spec: the abstract cryptographic provider and binary
codec (spec sections 4.1 and 6).  Every primitive is a deterministic pure
function; the first `Nat` argument is the ciphersuite (its u16 name), since
every derivation in the source is parametrised by the ciphersuite.  The
functions model: `JoinerSecret::new`, `PskSecret::new` (on the pairs of
TLS-serialised `PreSharedKeyId` and raw PSK bytes), the `welcome` derivation
of a `Joined` schedule, the `epoch_secret = Extract(joiner, serialize(ctx))`
derivation of `add_context` with the PSK folded in, `Derive-Secret` with an
ASCII label, the TLS serialisation of a `GroupContext`, and
`derive_external_keypair` composed with TLS serialisation of the resulting
public key.  `nameFromU16` models `CiphersuiteName::try_from` and
`supported`/`supportedList` model `Config::ciphersuite` /
`Config::supported_ciphersuites`. -/
structure Provider where
  joinerSecretNew : Nat → Bytes → Bytes → Bytes
  pskSecretNew : Nat → List (Bytes × Bytes) → Bytes
  welcomeSecret : Nat → Bytes → Bytes → Bytes
  epochSecretFrom : Nat → Bytes → Bytes → Bytes → Bytes
  deriveSecret : Nat → Bytes → String → Bytes
  ctxSerialize : GroupCtx → Bytes
  deriveExternalPub : Nat → Bytes → Bytes
  nameFromU16 : Nat → Option Nat
  supported : Nat → Bool
  supportedList : List Nat

/-- Modelled from the spec: the `Joined` state of the `KeySchedule` state
machine (spec section 4.1), as produced by
`KeySchedule::init(ciphersuite, provider, joiner_secret, Some(psk_secret))`.
Both call sites of the harness pass `Some` for the PSK secret, so it is kept
as a plain field. -/
structure KeySchedule where
  cs : Nat
  joiner_secret : Bytes
  psk_secret : Bytes
deriving DecidableEq, Repr

/-- Modelled from the spec: `KeySchedule::init`. -/
def KeySchedule.init (cs : Nat) (joiner psk : Bytes) : KeySchedule :=
  ⟨cs, joiner, psk⟩

/-- Modelled from the spec: `KeySchedule::welcome` derives the welcome secret
from the joined state without changing it (spec section 4.1: the welcome
branch does not advance the state irreversibly). -/
def KeySchedule.welcome (P : Provider) (ks : KeySchedule) : Bytes :=
  P.welcomeSecret ks.cs ks.joiner_secret ks.psk_secret

/-- Modelled from the spec: `KeySchedule::add_context` binds the group
context and yields the epoch secret
`Extract(joiner_secret, serialize(group_context))` with the PSK folded in. -/
def KeySchedule.add_context (P : Provider) (ks : KeySchedule) (ctx : GroupCtx) : Bytes :=
  P.epochSecretFrom ks.cs ks.joiner_secret ks.psk_secret (P.ctxSerialize ctx)

/-- The bundle returned by `KeySchedule::epoch_secrets`; `init_secret` is
`none` exactly when the schedule was asked to withhold it
(`with_init_secret = false`). -/
structure EpochSecrets where
  init_secret : Option Bytes
  sender_data_secret : Bytes
  encryption_secret : Bytes
  exporter_secret : Bytes
  authentication_secret : Bytes
  external_secret : Bytes
  confirmation_key : Bytes
  membership_key : Bytes
  resumption_secret : Bytes
deriving DecidableEq, Repr

/-- Fixed ASCII label for the sender-data secret (spec section 4.1). -/
def labelSenderData : String := "sender data"

/-- Fixed ASCII label for the encryption secret. -/
def labelEncryption : String := "encryption"

/-- Fixed ASCII label for the exporter secret. -/
def labelExporter : String := "exporter"

/-- Fixed ASCII label for the authentication secret. -/
def labelAuthentication : String := "authentication"

/-- Fixed ASCII label for the external secret. -/
def labelExternal : String := "external"

/-- Fixed ASCII label for the confirmation key. -/
def labelConfirm : String := "confirm"

/-- Fixed ASCII label for the membership key. -/
def labelMembershipKey : String := "membership key"

/-- Fixed ASCII label for the resumption secret. -/
def labelResumption : String := "resumption"

/-- Fixed ASCII label for the next init secret. -/
def labelInit : String := "init"

/-- Modelled from the spec: `KeySchedule::epoch_secrets(provider,
with_init_secret)` on a contextualised schedule whose epoch secret is
`es`: each named secret is `Derive-Secret(epoch_secret, label)`
(spec section 4.1). -/
def epochSecretsOf (P : Provider) (cs : Nat) (es : Bytes) (withInit : Bool) : EpochSecrets where
  init_secret := if withInit then some (P.deriveSecret cs es labelInit) else none
  sender_data_secret := P.deriveSecret cs es labelSenderData
  encryption_secret := P.deriveSecret cs es labelEncryption
  exporter_secret := P.deriveSecret cs es labelExporter
  authentication_secret := P.deriveSecret cs es labelAuthentication
  external_secret := P.deriveSecret cs es labelExternal
  confirmation_key := P.deriveSecret cs es labelConfirm
  membership_key := P.deriveSecret cs es labelMembershipKey
  resumption_secret := P.deriveSecret cs es labelResumption

/-- One `Epoch` record of the JSON test-vector format (struct `Epoch` of
`kat_key_schedule.rs`).  `psks` holds the pairs
(TLS-serialised `PreSharedKeyId`, PSK bytes) of the `PskValue` entries;
all other fields hold the hex-decoded bytes. -/
structure EpochTV where
  tree_hash : Bytes
  commit_secret : Bytes
  psks : List (Bytes × Bytes)
  confirmed_transcript_hash : Bytes
  group_context : Bytes
  joiner_secret : Bytes
  welcome_secret : Bytes
  init_secret : Bytes
  sender_data_secret : Bytes
  encryption_secret : Bytes
  exporter_secret : Bytes
  authentication_secret : Bytes
  external_secret : Bytes
  confirmation_key : Bytes
  membership_key : Bytes
  resumption_secret : Bytes
  external_pub : Bytes
deriving DecidableEq, Repr

/-- Struct `KeyScheduleTestVector` of `kat_key_schedule.rs`:
`cipher_suite` is the u16 name. -/
structure KeyScheduleTestVector where
  cipher_suite : Nat
  group_id : Bytes
  initial_init_secret : Bytes
  epochs : List EpochTV
deriving DecidableEq, Repr

/-- The `KsTestVectorError` variants returned by `run_test_vector`
(from `schedule/errors.rs`, as used in `kat_key_schedule.rs`). -/
inductive KsTestVectorError where
  | JoinerSecretMismatch
  | WelcomeSecretMismatch
  | GroupContextMismatch
  | InitSecretMismatch
  | SenderDataSecretMismatch
  | EncryptionSecretMismatch
  | ExporterSecretMismatch
  | AuthenticationSecretMismatch
  | ExternalSecretMismatch
  | ConfirmationKeyMismatch
  | MembershipKeyMismatch
  | ResumptionSecretMismatch
  | ExternalPubMismatch
deriving DecidableEq, Repr

/-- Outcome of `run_test_vector`: `Ok(())`, `Err(e)`, or the
`.expect("Invalid ciphersuite")` abort when the u16 is not a valid
`CiphersuiteName` at all. -/
inductive RunResult where
  | ok
  | err (e : KsTestVectorError)
  | invalidName
deriving DecidableEq, Repr

/-- The joiner secret recomputed by the loop body of `run_test_vector`:
`JoinerSecret::new(&crypto, &commit_secret, &init_secret)` (line 321). -/
def computedJoiner (P : Provider) (cs : Nat) (init : Bytes) (e : EpochTV) : Bytes :=
  P.joinerSecretNew cs e.commit_secret init

/-- The PSK secret recomputed by the loop body:
`PskSecret::new(ciphersuite, &crypto, &psk_ids, &psks)` (line 319). -/
def computedPsk (P : Provider) (cs : Nat) (e : EpochTV) : Bytes :=
  P.pskSecretNew cs e.psks

/-- The welcome secret recomputed by the loop body (line 335). -/
def computedWelcome (P : Provider) (cs : Nat) (init : Bytes) (e : EpochTV) : Bytes :=
  (KeySchedule.init cs (computedJoiner P cs init e) (computedPsk P cs e)).welcome P

/-- The group context rebuilt by the loop body (lines 346-353): the epoch
counter is the zero-based position `i` of the epoch in the vector. -/
def rebuiltCtx (gid : Bytes) (i : Nat) (e : EpochTV) : GroupCtx :=
  ⟨gid, i, e.tree_hash, e.confirmed_transcript_hash⟩

/-- The serialised group context the loop body compares against the recorded
one (line 356). -/
def computedCtxSer (P : Provider) (gid : Bytes) (i : Nat) (e : EpochTV) : Bytes :=
  P.ctxSerialize (rebuiltCtx gid i e)

/-- The epoch secrets recomputed by the loop body
(`add_context` then `epoch_secrets(&crypto, true)`, lines 367-369). -/
def computedES (P : Provider) (cs : Nat) (gid : Bytes) (i : Nat) (init : Bytes)
    (e : EpochTV) : EpochSecrets :=
  epochSecretsOf P cs
    ((KeySchedule.init cs (computedJoiner P cs init e) (computedPsk P cs e)).add_context P
      (rebuiltCtx gid i e))
    true

/-- The init secret the loop body stores for the next epoch
(`epoch_secrets.init_secret().unwrap()`, line 371); always present because
`with_init_secret` is `true`. -/
def computedInit (P : Provider) (cs : Nat) (gid : Bytes) (i : Nat) (init : Bytes)
    (e : EpochTV) : Bytes :=
  (computedES P cs gid i init e).init_secret.getD []

/-- The serialised external HPKE public key recomputed by the loop body
(lines 437-443). -/
def computedExtPub (P : Provider) (cs : Nat) (gid : Bytes) (i : Nat) (init : Bytes)
    (e : EpochTV) : Bytes :=
  P.deriveExternalPub cs (computedES P cs gid i init e).external_secret

/-- The loop body of `run_test_vector` (lines 295-458) for the epoch at
zero-based position `i`, outside `cfg(test)` (the `panic` branches taken
under `cfg(test)` are compiled out of the public `test-utils` build this
models).  Checks run in source order — joiner secret, welcome secret, group
context, init secret, sender-data, encryption, exporter, authentication,
external, confirmation key, membership key, resumption, external public
key — and on success the computed init secret is handed to the next
epoch. -/
def checkEpoch (P : Provider) (cs : Nat) (gid : Bytes) (i : Nat) (init : Bytes)
    (e : EpochTV) : Except KsTestVectorError Bytes :=
  if e.joiner_secret ≠ computedJoiner P cs init e then
    .error .JoinerSecretMismatch
  else if e.welcome_secret ≠ computedWelcome P cs init e then
    .error .WelcomeSecretMismatch
  else if e.group_context ≠ computedCtxSer P gid i e then
    .error .GroupContextMismatch
  else if e.init_secret ≠ computedInit P cs gid i init e then
    .error .InitSecretMismatch
  else if e.sender_data_secret ≠ (computedES P cs gid i init e).sender_data_secret then
    .error .SenderDataSecretMismatch
  else if e.encryption_secret ≠ (computedES P cs gid i init e).encryption_secret then
    .error .EncryptionSecretMismatch
  else if e.exporter_secret ≠ (computedES P cs gid i init e).exporter_secret then
    .error .ExporterSecretMismatch
  else if e.authentication_secret ≠ (computedES P cs gid i init e).authentication_secret then
    .error .AuthenticationSecretMismatch
  else if e.external_secret ≠ (computedES P cs gid i init e).external_secret then
    .error .ExternalSecretMismatch
  else if e.confirmation_key ≠ (computedES P cs gid i init e).confirmation_key then
    .error .ConfirmationKeyMismatch
  else if e.membership_key ≠ (computedES P cs gid i init e).membership_key then
    .error .MembershipKeyMismatch
  else if e.resumption_secret ≠ (computedES P cs gid i init e).resumption_secret then
    .error .ResumptionSecretMismatch
  else if e.external_pub ≠ computedExtPub P cs gid i init e then
    .error .ExternalPubMismatch
  else
    .ok (computedInit P cs gid i init e)

/-- The `for (i, epoch) in test_vector.epochs.iter().enumerate()` loop of
`run_test_vector`, threading the computed init secret from one epoch into
the next. -/
def runEpochs (P : Provider) (cs : Nat) (gid : Bytes) :
    Nat → Bytes → List EpochTV → Except KsTestVectorError Unit
  | _, _, [] => .ok ()
  | i, init, e :: rest =>
    match checkEpoch P cs gid i init e with
    | .error er => .error er
    | .ok init' => runEpochs P cs gid (i + 1) init' rest

/-- `run_test_vector(test_vector)` (lines 262-460): resolve the u16
ciphersuite name (`.expect` aborts on an invalid name), skip with `Ok(())`
when the build does not support the ciphersuite, otherwise replay every
epoch starting from the recorded initial init secret. -/
def run_test_vector (P : Provider) (tv : KeyScheduleTestVector) : RunResult :=
  match P.nameFromU16 tv.cipher_suite with
  | none => .invalidName
  | some name =>
    if P.supported name then
      match runEpochs P name tv.group_id 0 tv.initial_init_secret tv.epochs with
      | .ok _ => .ok
      | .error er => .err er
    else
      .ok

/-- The random draws consumed by one call of `generate` (lines 86-121):
`tree_hash` and `confirmed_transcript_hash` are
`crypto.rand().random_vec(hash_length)`, `commit_secret` is
`CommitSecret::random`, `pskCountRaw` is the `OsRng.next_u32()` value whose
remainder mod `0x10` fixes the number of PSKs, and `pskAt k` is the k-th
freshly drawn pair (TLS-serialised `PreSharedKeyId`, `PskSecret` bytes). -/
structure EpochRand where
  tree_hash : Bytes
  commit_secret : Bytes
  pskCountRaw : Nat
  pskAt : Nat → Bytes × Bytes
  confirmed_transcript_hash : Bytes

/-- The random draws consumed by one call of `generate_test_vector`
(lines 161-171): the initial `InitSecret::random`, the 16-byte random group
id, and the per-epoch draws. -/
structure GenRand where
  initial_init_secret : Bytes
  group_id : Bytes
  epochRand : Nat → EpochRand

/-- The tuple returned by `generate` (lines 70-151). -/
structure GenOut where
  confirmed_transcript_hash : Bytes
  commit_secret : Bytes
  joiner_secret : Bytes
  psks : List (Bytes × Bytes)
  welcome_secret : Bytes
  epoch_secrets : EpochSecrets
  tree_hash : Bytes
  group_context : GroupCtx
  external_pub : Bytes

/-- `generate(ciphersuite, init_secret, group_id, epoch)` (lines 70-151) with
the randomness `r` made explicit: draw tree hash and commit secret, build
`OsRng.next_u32() % 0x10` random PSKs (`next_u32` is a u32, hence the
`% 2 ^ 32`), run `JoinerSecret::new`, `KeySchedule::init`, `welcome`,
`add_context` on the freshly built `GroupContext`, and
`epoch_secrets(&crypto, true)`, finally deriving the external key pair. -/
def generate (P : Provider) (cs : Nat) (r : EpochRand) (init : Bytes) (gid : Bytes)
    (epoch : Nat) : GenOut :=
  let psks_out := (List.range (r.pskCountRaw % 2 ^ 32 % 0x10)).map r.pskAt
  let psk_secret := P.pskSecretNew cs psks_out
  let joiner := P.joinerSecretNew cs r.commit_secret init
  let ks := KeySchedule.init cs joiner psk_secret
  let wel := ks.welcome P
  let ctx : GroupCtx := ⟨gid, epoch, r.tree_hash, r.confirmed_transcript_hash⟩
  let es := epochSecretsOf P cs (ks.add_context P ctx) true
  ⟨r.confirmed_transcript_hash, r.commit_secret, joiner, psks_out, wel, es, r.tree_hash, ctx,
    P.deriveExternalPub cs es.external_secret⟩

/-- The `Epoch` record assembled from one `generate` result by the loop of
`generate_test_vector` (lines 193-215): every recorded field is the
hex encoding of the corresponding input or computed output. -/
def mkEpochTV (P : Provider) (g : GenOut) : EpochTV where
  tree_hash := g.tree_hash
  commit_secret := g.commit_secret
  psks := g.psks
  confirmed_transcript_hash := g.confirmed_transcript_hash
  group_context := P.ctxSerialize g.group_context
  joiner_secret := g.joiner_secret
  welcome_secret := g.welcome_secret
  init_secret := g.epoch_secrets.init_secret.getD []
  sender_data_secret := g.epoch_secrets.sender_data_secret
  encryption_secret := g.epoch_secrets.encryption_secret
  exporter_secret := g.epoch_secrets.exporter_secret
  authentication_secret := g.epoch_secrets.authentication_secret
  external_secret := g.epoch_secrets.external_secret
  confirmation_key := g.epoch_secrets.confirmation_key
  membership_key := g.epoch_secrets.membership_key
  resumption_secret := g.epoch_secrets.resumption_secret
  external_pub := g.external_pub

/-- The `for epoch in 0..n_epochs` loop of `generate_test_vector`
(lines 171-218), counting down the `n` remaining epochs from absolute epoch
`i` with running init secret `init`; after each epoch
`init_secret = epoch_secrets.init_secret().unwrap()` (line 217). -/
def genEpochs (P : Provider) (cs : Nat) (er : Nat → EpochRand) (gid : Bytes) :
    Nat → Nat → Bytes → List EpochTV
  | 0, _, _ => []
  | n + 1, i, init =>
    let g := generate P cs (er i) init gid i
    mkEpochTV P g :: genEpochs P cs er gid n (i + 1) (g.epoch_secrets.init_secret.getD [])

/-- `generate_test_vector(n_epochs, ciphersuite)` (lines 154-226) with the
randomness made explicit; `cipher_suite` records `ciphersuite.name() as u16`,
which is the `cs` argument. -/
def generate_test_vector (P : Provider) (rand : GenRand) (n : Nat) (cs : Nat) :
    KeyScheduleTestVector where
  cipher_suite := cs
  group_id := rand.group_id
  initial_init_secret := rand.initial_init_secret
  epochs := genEpochs P cs rand.epochRand rand.group_id n 0 rand.initial_init_secret

/-- The `write_test_vectors` test (lines 228-236): one 200-epoch vector per
supported ciphersuite, with `rands cs` the randomness consumed for
ciphersuite `cs`. -/
def write_test_vectors (P : Provider) (rands : Nat → GenRand) : List KeyScheduleTestVector :=
  P.supportedList.map fun cs => generate_test_vector P (rands cs) 200 cs

/-!
The TreeSync error taxonomy of `src/openmls/src/treesync/errors.rs`.
The payload types of the `#[error(transparent)]` variants are collaborator
error types declared outside the excerpted sources; each is modelled as an
opaque wrapper around its display message, which is all the taxonomy
uses of them.
-/

/-- Modelled from the spec: the opaque `LibraryError` collaborator type,
reduced to its display message. -/
structure LibraryError where
  msg : String
deriving DecidableEq, Repr

/-- Modelled from the spec: the opaque `MlsBinaryTreeError` collaborator
type. -/
structure MlsBinaryTreeError where
  msg : String
deriving DecidableEq, Repr

/-- Modelled from the spec: the opaque `MlsBinaryTreeDiffError` collaborator
type. -/
structure MlsBinaryTreeDiffError where
  msg : String
deriving DecidableEq, Repr

/-- Modelled from the spec: the opaque `TreeSyncNodeError` collaborator
type. -/
structure TreeSyncNodeError where
  msg : String
deriving DecidableEq, Repr

/-- Modelled from the spec: the opaque `NodeError` collaborator type. -/
structure NodeError where
  msg : String
deriving DecidableEq, Repr

/-- Modelled from the spec: the opaque `PathSecretError` collaborator
type. -/
structure PathSecretError where
  msg : String
deriving DecidableEq, Repr

/-- Modelled from the spec: the opaque `SenderError` collaborator type. -/
structure SenderError where
  msg : String
deriving DecidableEq, Repr

/-- Modelled from the spec: the opaque `CryptoError` collaborator type. -/
structure CryptoError where
  msg : String
deriving DecidableEq, Repr

/-- Modelled from the spec: the opaque `KeyPackageError` collaborator
type. -/
structure KeyPackageError where
  msg : String
deriving DecidableEq, Repr

/-- `enum PublicTreeError` (errors.rs lines 10-21). -/
inductive PublicTreeError where
  | PublicKeyMismatch
  | DuplicateKeyPackage
  | MissingKeyPackage
  | MalformedTree
  | InvalidParentHash
deriving DecidableEq, Repr

/-- The `#[error("...")]` display message of each `PublicTreeError`
variant. -/
def PublicTreeError.message : PublicTreeError → String
  | .PublicKeyMismatch => "The derived public key doesn\x27t match the one in the tree."
  | .DuplicateKeyPackage => "Found two KeyPackages with the same public key."
  | .MissingKeyPackage => "Couldn\x27t find our own key package in this tree."
  | .MalformedTree => "The tree is malformed."
  | .InvalidParentHash => "A parent hash was invalid."

/-- `enum TreeSyncSetPathError` (errors.rs lines 52-57). -/
inductive TreeSyncSetPathError where
  | LibraryError (e : LibraryError)
  | PublicKeyMismatch
deriving DecidableEq, Repr

/-- The display message of each `TreeSyncSetPathError` variant; the
`LibraryError` variant is `#[error(transparent)]`. -/
def TreeSyncSetPathError.message : TreeSyncSetPathError → String
  | .LibraryError e => e.msg
  | .PublicKeyMismatch => "The derived public key doesn\x27t match the one in the tree."

/-- `enum TreeSyncDiffError` (errors.rs lines 79-110). -/
inductive TreeSyncDiffError where
  | LibraryError (e : LibraryError)
  | PathLengthError
  | MissingParentHash
  | ParentHashMismatch
  | InvalidParentHash
  | BlankUnmergedLeaf
  | NoPrivateKeyFound
  | NodeTypeError (e : NodeError)
  | TreeSyncNodeError (e : TreeSyncNodeError)
  | TreeDiffError (e : MlsBinaryTreeDiffError)
  | CryptoError (e : CryptoError)
  | DerivationError (e : PathSecretError)
  | CreationError (e : MlsBinaryTreeError)
  | KeyPackageError (e : KeyPackageError)
deriving DecidableEq, Repr

/-- The display message of each `TreeSyncDiffError` variant; the payload
variants are `#[error(transparent)]`. -/
def TreeSyncDiffError.message : TreeSyncDiffError → String
  | .LibraryError e => e.msg
  | .PathLengthError => "The given path does not have the length of the given leaf\x27s direct path."
  | .MissingParentHash => "The given key package does not contain a parent hash extension."
  | .ParentHashMismatch => "The parent hash of the given key package is invalid."
  | .InvalidParentHash => "The parent hash of a node in the given tree is invalid."
  | .BlankUnmergedLeaf => "The leaf index in the unmerged leaves of a parent node point to a blank."
  | .NoPrivateKeyFound => "Couldn\x27t find a fitting private key in the filtered resolution of the given leaf index."
  | .NodeTypeError e => e.msg
  | .TreeSyncNodeError e => e.msg
  | .TreeDiffError e => e.msg
  | .CryptoError e => e.msg
  | .DerivationError e => e.msg
  | .CreationError e => e.msg
  | .KeyPackageError e => e.msg

/-- `enum TreeSyncError` (errors.rs lines 27-48). -/
inductive TreeSyncError where
  | LibraryError (e : LibraryError)
  | KeyPackageRefNotInTree
  | SetPathError (e : TreeSyncSetPathError)
  | BinaryTreeError (e : MlsBinaryTreeError)
  | TreeSyncNodeError (e : TreeSyncNodeError)
  | NodeTypeError (e : NodeError)
  | TreeSyncDiffError (e : TreeSyncDiffError)
  | DerivationError (e : PathSecretError)
  | SenderError (e : SenderError)
  | CryptoError (e : CryptoError)
deriving DecidableEq, Repr

/-- The display message of each `TreeSyncError` variant; the
`KeyPackageRefNotInTree` message is taken verbatim from errors.rs line 30,
all payload variants are `#[error(transparent)]`. -/
def TreeSyncError.message : TreeSyncError → String
  | .LibraryError e => e.msg
  | .KeyPackageRefNotInTree => "Found two KeyPackages with the same public key."
  | .SetPathError e => e.message
  | .BinaryTreeError e => e.msg
  | .TreeSyncNodeError e => e.msg
  | .NodeTypeError e => e.msg
  | .TreeSyncDiffError e => e.message
  | .DerivationError e => e.msg
  | .SenderError e => e.msg
  | .CryptoError e => e.msg

/-!
Specification-side descriptions of the verification loop, used to state the
claims: the ordered list of per-field mismatch checks, the first mismatch of
that list, the all-fields-match predicate, and the init-secret chain.
-/

/-- The thirteen per-field comparisons of one epoch of `run_test_vector`,
as (mismatch?, named error) pairs, in the order the source performs them. -/
def mismatchChecks (P : Provider) (cs : Nat) (gid : Bytes) (i : Nat) (init : Bytes)
    (e : EpochTV) : List (Bool × KsTestVectorError) :=
  [ (decide (e.joiner_secret ≠ computedJoiner P cs init e), .JoinerSecretMismatch),
    (decide (e.welcome_secret ≠ computedWelcome P cs init e), .WelcomeSecretMismatch),
    (decide (e.group_context ≠ computedCtxSer P gid i e), .GroupContextMismatch),
    (decide (e.init_secret ≠ computedInit P cs gid i init e), .InitSecretMismatch),
    (decide (e.sender_data_secret ≠ (computedES P cs gid i init e).sender_data_secret),
      .SenderDataSecretMismatch),
    (decide (e.encryption_secret ≠ (computedES P cs gid i init e).encryption_secret),
      .EncryptionSecretMismatch),
    (decide (e.exporter_secret ≠ (computedES P cs gid i init e).exporter_secret),
      .ExporterSecretMismatch),
    (decide (e.authentication_secret ≠ (computedES P cs gid i init e).authentication_secret),
      .AuthenticationSecretMismatch),
    (decide (e.external_secret ≠ (computedES P cs gid i init e).external_secret),
      .ExternalSecretMismatch),
    (decide (e.confirmation_key ≠ (computedES P cs gid i init e).confirmation_key),
      .ConfirmationKeyMismatch),
    (decide (e.membership_key ≠ (computedES P cs gid i init e).membership_key),
      .MembershipKeyMismatch),
    (decide (e.resumption_secret ≠ (computedES P cs gid i init e).resumption_secret),
      .ResumptionSecretMismatch),
    (decide (e.external_pub ≠ computedExtPub P cs gid i init e), .ExternalPubMismatch) ]

/-- The error of the first failing check of an ordered check list, if any. -/
def firstErr : List (Bool × KsTestVectorError) → Option KsTestVectorError
  | [] => none
  | (b, er) :: rest => if b then some er else firstErr rest

/-- All epochs of a vector match their recomputation, with the computed init
secret of each epoch feeding the next. -/
def allEpochsMatch (P : Provider) (cs : Nat) (gid : Bytes) :
    Nat → Bytes → List EpochTV → Prop
  | _, _, [] => True
  | i, init, e :: rest =>
    firstErr (mismatchChecks P cs gid i init e) = none ∧
      allEpochsMatch P cs gid (i + 1) (computedInit P cs gid i init e) rest

/-- The recorded epochs form an init-secret chain starting from `init`:
each epoch records the joiner secret derived from its own commit secret and
the init secret of the previous epoch (the initial init secret for epoch
0). -/
def chainedFrom (P : Provider) (cs : Nat) : Bytes → List EpochTV → Prop
  | _, [] => True
  | init, e :: rest =>
    e.joiner_secret = P.joinerSecretNew cs e.commit_secret init ∧
      chainedFrom P cs e.init_secret rest

/-- The init secret left after successfully replaying a list of epochs, or
`none` when some epoch fails a check. -/
def passInit (P : Provider) (cs : Nat) (gid : Bytes) :
    Nat → Bytes → List EpochTV → Option Bytes
  | _, init, [] => some init
  | i, init, e :: rest =>
    match checkEpoch P cs gid i init e with
    | .ok init' => passInit P cs gid (i + 1) init' rest
    | .error _ => none

/-- A check headed by a satisfied mismatch condition reports that check. -/
theorem firstErr_cons_true {p : Prop} [Decidable p] (hp : p) (er : KsTestVectorError)
    (rest : List (Bool × KsTestVectorError)) :
    firstErr ((decide p, er) :: rest) = some er := by
  simp [firstErr, hp]

/-- A check headed by a failed mismatch condition defers to the rest. -/
theorem firstErr_cons_false {p : Prop} [Decidable p] (hp : ¬p) (er : KsTestVectorError)
    (rest : List (Bool × KsTestVectorError)) :
    firstErr ((decide p, er) :: rest) = firstErr rest := by
  simp [firstErr, hp]

/-- Refinement: the loop body of `run_test_vector` returns exactly the error
of the first mismatching field in check order, and the computed init secret
when every field matches. -/
theorem checkEpoch_eq_firstErr (P : Provider) (cs : Nat) (gid : Bytes) (i : Nat)
    (init : Bytes) (e : EpochTV) :
    checkEpoch P cs gid i init e =
      match firstErr (mismatchChecks P cs gid i init e) with
      | some er => .error er
      | none => .ok (computedInit P cs gid i init e) := by
  unfold checkEpoch mismatchChecks
  by_cases h1 : e.joiner_secret ≠ computedJoiner P cs init e
  · rw [if_pos h1, firstErr_cons_true h1]
  rw [if_neg h1, firstErr_cons_false h1]
  by_cases h2 : e.welcome_secret ≠ computedWelcome P cs init e
  · rw [if_pos h2, firstErr_cons_true h2]
  rw [if_neg h2, firstErr_cons_false h2]
  by_cases h3 : e.group_context ≠ computedCtxSer P gid i e
  · rw [if_pos h3, firstErr_cons_true h3]
  rw [if_neg h3, firstErr_cons_false h3]
  by_cases h4 : e.init_secret ≠ computedInit P cs gid i init e
  · rw [if_pos h4, firstErr_cons_true h4]
  rw [if_neg h4, firstErr_cons_false h4]
  by_cases h5 : e.sender_data_secret ≠ (computedES P cs gid i init e).sender_data_secret
  · rw [if_pos h5, firstErr_cons_true h5]
  rw [if_neg h5, firstErr_cons_false h5]
  by_cases h6 : e.encryption_secret ≠ (computedES P cs gid i init e).encryption_secret
  · rw [if_pos h6, firstErr_cons_true h6]
  rw [if_neg h6, firstErr_cons_false h6]
  by_cases h7 : e.exporter_secret ≠ (computedES P cs gid i init e).exporter_secret
  · rw [if_pos h7, firstErr_cons_true h7]
  rw [if_neg h7, firstErr_cons_false h7]
  by_cases h8 : e.authentication_secret ≠ (computedES P cs gid i init e).authentication_secret
  · rw [if_pos h8, firstErr_cons_true h8]
  rw [if_neg h8, firstErr_cons_false h8]
  by_cases h9 : e.external_secret ≠ (computedES P cs gid i init e).external_secret
  · rw [if_pos h9, firstErr_cons_true h9]
  rw [if_neg h9, firstErr_cons_false h9]
  by_cases h10 : e.confirmation_key ≠ (computedES P cs gid i init e).confirmation_key
  · rw [if_pos h10, firstErr_cons_true h10]
  rw [if_neg h10, firstErr_cons_false h10]
  by_cases h11 : e.membership_key ≠ (computedES P cs gid i init e).membership_key
  · rw [if_pos h11, firstErr_cons_true h11]
  rw [if_neg h11, firstErr_cons_false h11]
  by_cases h12 : e.resumption_secret ≠ (computedES P cs gid i init e).resumption_secret
  · rw [if_pos h12, firstErr_cons_true h12]
  rw [if_neg h12, firstErr_cons_false h12]
  by_cases h13 : e.external_pub ≠ computedExtPub P cs gid i init e
  · rw [if_pos h13, firstErr_cons_true h13]
  rw [if_neg h13, firstErr_cons_false h13]
  rfl

/-- A check list has no failing entry iff its first error is `none`. -/
theorem firstErr_eq_none_iff (l : List (Bool × KsTestVectorError)) :
    firstErr l = none ↔ ∀ p ∈ l, p.1 = false := by
  induction l with
  | nil => simp [firstErr]
  | cons p rest ih =>
    obtain ⟨b, er⟩ := p
    cases b <;> simp [firstErr, ih]

/-- The loop body succeeds exactly when no check fails, and then returns the
computed init secret. -/
theorem checkEpoch_ok_iff (P : Provider) (cs : Nat) (gid : Bytes) (i : Nat)
    (init b : Bytes) (e : EpochTV) :
    checkEpoch P cs gid i init e = .ok b ↔
      firstErr (mismatchChecks P cs gid i init e) = none ∧
        b = computedInit P cs gid i init e := by
  rw [checkEpoch_eq_firstErr]
  cases h : firstErr (mismatchChecks P cs gid i init e) <;> simp [eq_comm]

/-- The epoch loop of `run_test_vector` succeeds exactly when every epoch
matches. -/
theorem runEpochs_ok_iff (P : Provider) (cs : Nat) (gid : Bytes)
    (l : List EpochTV) : ∀ (i : Nat) (init : Bytes),
    runEpochs P cs gid i init l = .ok () ↔ allEpochsMatch P cs gid i init l := by
  induction l with
  | nil => intro i init; simp [runEpochs, allEpochsMatch]
  | cons e rest ih =>
    intro i init
    rw [runEpochs, checkEpoch_eq_firstErr]
    cases h : firstErr (mismatchChecks P cs gid i init e) with
    | none => simp [allEpochsMatch, h, ih]
    | some er => simp [allEpochsMatch, h]

/-- Running a concatenation: once a replayed initial segment of the epochs
list passes, the loop continues on the remainder at the shifted position
with the init secret the segment handed over. -/
theorem runEpochs_append (P : Provider) (cs : Nat) (gid : Bytes)
    (l1 l2 : List EpochTV) : ∀ (i : Nat) (init init' : Bytes),
    passInit P cs gid i init l1 = some init' →
    runEpochs P cs gid i init (l1 ++ l2) =
      runEpochs P cs gid (i + l1.length) init' l2 := by
  induction l1 with
  | nil =>
    intro i init init' h
    simp only [passInit, Option.some.injEq] at h
    simp [h]
  | cons e rest ih =>
    intro i init init' h
    rw [passInit] at h
    cases hc : checkEpoch P cs gid i init e with
    | error er => rw [hc] at h; cases h
    | ok nextInit =>
      rw [hc] at h
      dsimp only at h
      rw [List.cons_append, runEpochs, hc]
      dsimp only
      rw [ih (i + 1) nextInit init' h]
      simp only [List.length_cons]
      rw [show i + 1 + rest.length = i + (rest.length + 1) from by omega]

/-- Replaying an epoch record freshly produced by `generate` succeeds and
hands over exactly the init secret `generate` derived. -/
theorem checkEpoch_mkEpochTV (P : Provider) (cs : Nat) (r : EpochRand)
    (init gid : Bytes) (i : Nat) :
    checkEpoch P cs gid i init (mkEpochTV P (generate P cs r init gid i)) =
      .ok ((generate P cs r init gid i).epoch_secrets.init_secret.getD []) := by
  simp [checkEpoch, mkEpochTV, generate, computedJoiner, computedPsk, computedWelcome,
    computedCtxSer, rebuiltCtx, computedES, computedInit, computedExtPub,
    KeySchedule.init, KeySchedule.welcome, KeySchedule.add_context, epochSecretsOf]

/-- Replaying every epoch produced by the generation loop succeeds. -/
theorem runEpochs_genEpochs (P : Provider) (cs : Nat) (er : Nat → EpochRand)
    (gid : Bytes) (n : Nat) : ∀ (i : Nat) (init : Bytes),
    runEpochs P cs gid i init (genEpochs P cs er gid n i init) = .ok () := by
  induction n with
  | zero => intro i init; rfl
  | succ n ih =>
    intro i init
    rw [genEpochs, runEpochs, checkEpoch_mkEpochTV]
    exact ih (i + 1) _

/-- The generation loop produces one epoch record per requested epoch. -/
theorem genEpochs_length (P : Provider) (cs : Nat) (er : Nat → EpochRand)
    (gid : Bytes) (n : Nat) : ∀ (i : Nat) (init : Bytes),
    (genEpochs P cs er gid n i init).length = n := by
  induction n with
  | zero => intro i init; rfl
  | succ n ih =>
    intro i init
    rw [genEpochs]
    simp [ih]

/-- The epochs produced by the generation loop form an init-secret chain. -/
theorem chainedFrom_genEpochs (P : Provider) (cs : Nat) (er : Nat → EpochRand)
    (gid : Bytes) (n : Nat) : ∀ (i : Nat) (init : Bytes),
    chainedFrom P cs init (genEpochs P cs er gid n i init) := by
  induction n with
  | zero => intro i init; trivial
  | succ n ih =>
    intro i init
    rw [genEpochs, chainedFrom]
    constructor
    · simp [mkEpochTV, generate]
    · exact ih (i + 1) _

/-- When the loop body succeeds, the init secret it hands to the next epoch
is the computed one, and the recorded `init_secret` field equals it. -/
theorem checkEpoch_ok_chain (P : Provider) (cs : Nat) (gid : Bytes) (i : Nat)
    (init init' : Bytes) (e : EpochTV)
    (h : checkEpoch P cs gid i init e = .ok init') :
    init' = computedInit P cs gid i init e ∧ e.init_secret = init' := by
  rw [checkEpoch_ok_iff] at h
  obtain ⟨hnone, hb⟩ := h
  refine ⟨hb, ?_⟩
  rw [firstErr_eq_none_iff] at hnone
  have hmem : (decide (e.init_secret ≠ computedInit P cs gid i init e),
      KsTestVectorError.InitSecretMismatch) ∈ mismatchChecks P cs gid i init e := by
    simp [mismatchChecks]
  have hfalse := hnone _ hmem
  simp only [decide_eq_false_iff_not, not_not] at hfalse
  rw [hb, ← hfalse]

/-!
A small concrete provider and concrete inputs, used to instantiate the
universally quantified theorems below at closed values.
-/

/-- A concrete deterministic provider: every primitive tags its output with a
distinct marker byte and the ciphersuite, then appends its inputs, so
distinct derivations never collide; the serialised group context carries the
epoch counter at position 1; ciphersuite names are the u16 values below 10
and only ciphersuite 1 is supported. -/
def P0 : Provider where
  joinerSecretNew := fun cs c i => 1 :: cs :: (c ++ i)
  pskSecretNew := fun cs l => 2 :: cs :: (l.map fun p => p.1 ++ p.2).flatten
  welcomeSecret := fun cs j p => 3 :: cs :: (j ++ p)
  epochSecretFrom := fun cs j p c => 4 :: cs :: (j ++ p ++ c)
  deriveSecret := fun cs es label => 5 :: cs :: label.length :: es
  ctxSerialize := fun c =>
    6 :: c.epoch :: (c.group_id ++ c.tree_hash ++ c.confirmed_transcript_hash)
  deriveExternalPub := fun cs s => 7 :: cs :: s
  nameFromU16 := fun n => if n < 10 then some n else none
  supported := fun n => n == 1
  supportedList := [1]

/-- Concrete per-epoch randomness drawing three PSKs. -/
def r0Epoch : EpochRand where
  tree_hash := [10]
  commit_secret := [11]
  pskCountRaw := 3
  pskAt := fun k => ([k], [k + 20])
  confirmed_transcript_hash := [12]

/-- Concrete generator randomness. -/
def r0 : GenRand where
  initial_init_secret := [9]
  group_id := [8]
  epochRand := fun i => ⟨[i], [i + 1], i, fun k => ([k], [k + 20]), [i + 2]⟩

/-- One generator-randomness choice per ciphersuite. -/
def rnds : Nat → GenRand := fun _ => r0

/-- Concrete per-epoch randomness drawing no PSK (`next_u32` returned 0). -/
def rEpA : EpochRand where
  tree_hash := [10]
  commit_secret := [11]
  pskCountRaw := 0
  pskAt := fun k => ([k], [k])
  confirmed_transcript_hash := [12]

/-- Concrete per-epoch randomness also drawing no PSK (`next_u32` returned
16), with a different unused PSK stream. -/
def rEpB : EpochRand where
  tree_hash := [10]
  commit_secret := [11]
  pskCountRaw := 16
  pskAt := fun k => ([k + 1], [k + 2])
  confirmed_transcript_hash := [12]

/-- A hand-written epoch record whose recorded `group_context` and
`joiner_secret` (among others) both differ from any value the provider can
recompute. -/
def eC2 : EpochTV where
  tree_hash := [4]
  commit_secret := [5]
  psks := []
  confirmed_transcript_hash := [6]
  group_context := [0]
  joiner_secret := [0]
  welcome_secret := [0]
  init_secret := [0]
  sender_data_secret := [0]
  encryption_secret := [0]
  exporter_secret := [0]
  authentication_secret := [0]
  external_secret := [0]
  confirmation_key := [0]
  membership_key := [0]
  resumption_secret := [0]
  external_pub := [0]

/-- A vector for supported ciphersuite 1 holding the one bad epoch above. -/
def tvC2 : KeyScheduleTestVector where
  cipher_suite := 1
  group_id := [8]
  initial_init_secret := [9]
  epochs := [eC2]

/-- The same bad epoch under ciphersuite 2, which `P0` names but does not
support. -/
def tvC3 : KeyScheduleTestVector where
  cipher_suite := 2
  group_id := [8]
  initial_init_secret := [9]
  epochs := [eC2]

/-- An epoch record whose joiner and welcome secrets match what `P0`
recomputes from init secret `[9]`, but whose recorded group context was
serialised with epoch counter 5 instead of its position 0. -/
def eC10 : EpochTV where
  tree_hash := [4]
  commit_secret := [5]
  psks := []
  confirmed_transcript_hash := [6]
  group_context := [6, 5, 8, 4, 6]
  joiner_secret := [1, 1, 5, 9]
  welcome_secret := [3, 1, 1, 1, 5, 9, 2, 1]
  init_secret := [0]
  sender_data_secret := [0]
  encryption_secret := [0]
  exporter_secret := [0]
  authentication_secret := [0]
  external_secret := [0]
  confirmation_key := [0]
  membership_key := [0]
  resumption_secret := [0]
  external_pub := [0]

/-- The vector holding the wrong-epoch-number record above at position 0. -/
def tvC10 : KeyScheduleTestVector where
  cipher_suite := 1
  group_id := [8]
  initial_init_secret := [9]
  epochs := [eC10]

/-- C1: for every ciphersuite this build supports (its u16 name is a valid
`CiphersuiteName` resolving to itself and the config accepts it) and every
epoch count, verifying a test vector produced by generation succeeds:
`run_test_vector` applied to the result of `generate_test_vector(n,
ciphersuite)` returns `Ok(())` — every recorded output field is reproduced
byte-exactly when the recorded inputs are replayed — for every choice of
the generator randomness. -/
theorem c1_generate_verify_roundtrip (P : Provider) (rand : GenRand) (n cs : Nat)
    (hname : P.nameFromU16 cs = some cs) (hsupp : P.supported cs = true) :
    run_test_vector P (generate_test_vector P rand n cs) = .ok := by
  simp [run_test_vector, generate_test_vector, hname, hsupp, runEpochs_genEpochs]

/-- Witness for C1: the round trip at the concrete provider `P0`, concrete
randomness, two epochs, ciphersuite 1. -/
theorem c1_witness : run_test_vector P0 (generate_test_vector P0 r0 2 1) = .ok :=
  c1_generate_verify_roundtrip P0 r0 2 1 (by decide) (by decide)

/-- C2 is false as stated: in the vector `tvC2` both the recorded group
context and the recorded joiner secret differ from the replayed values, yet
`run_test_vector` reports `JoinerSecretMismatch` — the joiner secret is
checked first in the source — not `GroupContextMismatch`, although
`group_context` precedes `joiner_secret` in the section 6 field order. -/
theorem c2_counterexample :
    eC2.group_context ≠ computedCtxSer P0 tvC2.group_id 0 eC2 ∧
    eC2.joiner_secret ≠ computedJoiner P0 1 tvC2.initial_init_secret eC2 ∧
    run_test_vector P0 tvC2 = .err .JoinerSecretMismatch :=
  ⟨by decide, by decide, by decide⟩

/-- C2 (amended): verification checks the recorded output fields in source
order — joiner_secret, welcome_secret, group_context, init_secret,
sender_data_secret, encryption_secret, exporter_secret,
authentication_secret, external_secret, confirmation_key, membership_key,
resumption_secret, external_pub — so `group_context` is compared after
`joiner_secret` and `welcome_secret`, not before `joiner_secret`.  Stated in
full generality: for a supported vector, once every epoch before position
`pre.length` replays cleanly, the error returned for the epoch at that
position is exactly the named error of the first field, in that thirteen
entry check order, whose recorded value differs from the replayed one —
however many later fields also mismatch. -/
theorem c2_amended_check_order (P : Provider) (tv : KeyScheduleTestVector)
    (name : Nat) (pre post : List EpochTV) (e : EpochTV) (initj : Bytes)
    (er : KsTestVectorError)
    (hname : P.nameFromU16 tv.cipher_suite = some name)
    (hsupp : P.supported name = true)
    (heps : tv.epochs = pre ++ e :: post)
    (hpre : passInit P name tv.group_id 0 tv.initial_init_secret pre = some initj)
    (her : firstErr (mismatchChecks P name tv.group_id pre.length initj e) = some er) :
    run_test_vector P tv = .err er := by
  have hcheck : checkEpoch P name tv.group_id (0 + pre.length) initj e = .error er := by
    rw [checkEpoch_eq_firstErr, Nat.zero_add, her]
  have hfin : runEpochs P name tv.group_id 0 tv.initial_init_secret tv.epochs =
      .error er := by
    rw [heps, runEpochs_append P name tv.group_id pre (e :: post) 0
      tv.initial_init_secret initj hpre, runEpochs, hcheck]
  simp [run_test_vector, hname, hsupp, hfin]

/-- The init secret `P0` derives for the epoch after the concrete generated
epoch 0. -/
def initAfter0 : Bytes :=
  (generate P0 1 r0Epoch [9] [8] 0).epoch_secrets.init_secret.getD []

/-- An epoch record for position 1 whose joiner and welcome secrets match
what `P0` replays from `initAfter0`, whose recorded group context is wrong,
and whose remaining ten fields are wrong too. -/
def eC2gc : EpochTV where
  tree_hash := [4]
  commit_secret := [5]
  psks := []
  confirmed_transcript_hash := [6]
  group_context := [0]
  joiner_secret := P0.joinerSecretNew 1 [5] initAfter0
  welcome_secret :=
    P0.welcomeSecret 1 (P0.joinerSecretNew 1 [5] initAfter0) (P0.pskSecretNew 1 [])
  init_secret := [0]
  sender_data_secret := [0]
  encryption_secret := [0]
  exporter_secret := [0]
  authentication_secret := [0]
  external_secret := [0]
  confirmation_key := [0]
  membership_key := [0]
  resumption_secret := [0]
  external_pub := [0]

/-- A two-epoch vector: a cleanly replaying generated epoch 0 followed by
`eC2gc` at position 1. -/
def tvC2gc : KeyScheduleTestVector where
  cipher_suite := 1
  group_id := [8]
  initial_init_secret := [9]
  epochs := [mkEpochTV P0 (generate P0 1 r0Epoch [9] [8] 0), eC2gc]

/-- Witness for C2 (amended): in `tvC2gc` epoch 0 passes, and at epoch 1 the
joiner and welcome secrets match while group context and the ten fields
after it all mismatch, so the first mismatching field in check order is the
group context and the error is `GroupContextMismatch`. -/
theorem c2_amended_witness : run_test_vector P0 tvC2gc = .err .GroupContextMismatch :=
  c2_amended_check_order P0 tvC2gc 1
    [mkEpochTV P0 (generate P0 1 r0Epoch [9] [8] 0)] [] eC2gc initAfter0
    .GroupContextMismatch (by decide) (by decide) rfl (by decide) (by decide)

/-- C3: a test vector whose `cipher_suite` value names a valid ciphersuite
the build does not support is skipped: `run_test_vector` returns `Ok(())`
without checking any epoch, whatever the epochs contain. -/
theorem c3_unsupported_skipped (P : Provider) (tv : KeyScheduleTestVector)
    (name : Nat)
    (hname : P.nameFromU16 tv.cipher_suite = some name)
    (hsupp : P.supported name = false) :
    run_test_vector P tv = .ok := by
  simp [run_test_vector, hname, hsupp]

/-- Witness for C3: `tvC3` names ciphersuite 2, which `P0` does not support,
and its only epoch would fail every field check if it were replayed. -/
theorem c3_witness : run_test_vector P0 tvC3 = .ok :=
  c3_unsupported_skipped P0 tvC3 2 (by decide) (by decide)

/-- C4: the init secret derived in epoch n is the init secret fed into the
derivation of epoch n+1.  First conjunct: the epochs recorded by
`generate_test_vector` form an init-secret chain starting from the initial
init secret (each epoch records the joiner secret derived from its commit
secret and the previous epoch's recorded init secret).  Second conjunct: the
`write_test_vectors` KAT run produces, for every supported ciphersuite, a
vector of exactly 200 epochs with that chain property.  Third conjunct: when
the loop body of `run_test_vector` accepts an epoch, the init secret it
threads into the next epoch is the recomputed one, which equals the
recorded `init_secret` field. -/
theorem c4_init_secret_chain :
    (∀ (P : Provider) (rand : GenRand) (n cs : Nat),
      chainedFrom P cs rand.initial_init_secret
        (generate_test_vector P rand n cs).epochs) ∧
    (∀ (P : Provider) (rands : Nat → GenRand) (tv : KeyScheduleTestVector),
      tv ∈ write_test_vectors P rands →
        tv.epochs.length = 200 ∧
        chainedFrom P tv.cipher_suite tv.initial_init_secret tv.epochs) ∧
    (∀ (P : Provider) (cs : Nat) (gid : Bytes) (i : Nat) (init init' : Bytes)
        (e : EpochTV),
      checkEpoch P cs gid i init e = .ok init' →
        init' = computedInit P cs gid i init e ∧ e.init_secret = init') := by
  refine ⟨?_, ?_, ?_⟩
  · intro P rand n cs
    exact chainedFrom_genEpochs P cs rand.epochRand rand.group_id n 0
      rand.initial_init_secret
  · intro P rands tv htv
    simp only [write_test_vectors, List.mem_map] at htv
    obtain ⟨cs, _, heq⟩ := htv
    subst heq
    exact ⟨genEpochs_length P cs (rands cs).epochRand (rands cs).group_id 200 0
        (rands cs).initial_init_secret,
      chainedFrom_genEpochs P cs (rands cs).epochRand (rands cs).group_id 200 0
        (rands cs).initial_init_secret⟩
  · intro P cs gid i init init' e h
    exact checkEpoch_ok_chain P cs gid i init init' e h

/-- Witness for C4: the chain at the concrete two-epoch vector, the 200-epoch
vector `write_test_vectors` produces for the one supported ciphersuite of
`P0`, and the init handover on a freshly generated epoch record. -/
theorem c4_witness :
    chainedFrom P0 1 r0.initial_init_secret (generate_test_vector P0 r0 2 1).epochs ∧
    ((generate_test_vector P0 (rnds 1) 200 1).epochs.length = 200 ∧
      chainedFrom P0 (generate_test_vector P0 (rnds 1) 200 1).cipher_suite
        (generate_test_vector P0 (rnds 1) 200 1).initial_init_secret
        (generate_test_vector P0 (rnds 1) 200 1).epochs) ∧
    ((generate P0 1 r0Epoch [9] [8] 0).epoch_secrets.init_secret.getD [] =
        computedInit P0 1 [8] 0 [9] (mkEpochTV P0 (generate P0 1 r0Epoch [9] [8] 0)) ∧
      (mkEpochTV P0 (generate P0 1 r0Epoch [9] [8] 0)).init_secret =
        (generate P0 1 r0Epoch [9] [8] 0).epoch_secrets.init_secret.getD []) :=
  ⟨c4_init_secret_chain.1 P0 r0 2 1,
    c4_init_secret_chain.2.1 P0 rnds (generate_test_vector P0 (rnds 1) 200 1)
      (List.mem_singleton.mpr rfl),
    c4_init_secret_chain.2.2 P0 1 [8] 0 [9]
      ((generate P0 1 r0Epoch [9] [8] 0).epoch_secrets.init_secret.getD [])
      (mkEpochTV P0 (generate P0 1 r0Epoch [9] [8] 0))
      (checkEpoch_mkEpochTV P0 1 r0Epoch [9] [8] 0)⟩

/-- C5: each checked output field has its own named mismatch error.  First
conjunct (refinement): outside `cfg(test)` the loop body of
`run_test_vector` returns exactly the error paired with the first
mismatching field of the ordered check list — `JoinerSecretMismatch` for
`joiner_secret`, `WelcomeSecretMismatch` for `welcome_secret`,
`GroupContextMismatch` for `group_context`, `InitSecretMismatch` for
`init_secret`, and so on through `ExternalPubMismatch` — and succeeds only
when no field mismatches.  Second conjunct: the epoch loop returns `Ok(())`
exactly when every checked field of every epoch matches.  Third conjunct:
for a supported ciphersuite `run_test_vector` is exactly that loop. -/
theorem c5_field_specific_errors :
    (∀ (P : Provider) (cs : Nat) (gid : Bytes) (i : Nat) (init : Bytes) (e : EpochTV),
      checkEpoch P cs gid i init e =
        match firstErr (mismatchChecks P cs gid i init e) with
        | some er => .error er
        | none => .ok (computedInit P cs gid i init e)) ∧
    (∀ (P : Provider) (cs : Nat) (gid : Bytes) (i : Nat) (init : Bytes)
        (l : List EpochTV),
      runEpochs P cs gid i init l = .ok () ↔ allEpochsMatch P cs gid i init l) ∧
    (∀ (P : Provider) (tv : KeyScheduleTestVector) (name : Nat),
      P.nameFromU16 tv.cipher_suite = some name → P.supported name = true →
      run_test_vector P tv =
        match runEpochs P name tv.group_id 0 tv.initial_init_secret tv.epochs with
        | .ok _ => RunResult.ok
        | .error er => RunResult.err er) := by
  refine ⟨checkEpoch_eq_firstErr, ?_, ?_⟩
  · intro P cs gid i init l
    exact runEpochs_ok_iff P cs gid l i init
  · intro P tv name hname hsupp
    simp [run_test_vector, hname, hsupp]

/-- Witness for C5: the three conjuncts at concrete inputs — the refinement
at the bad epoch `eC2`, the loop characterisation on its vector, and the
`run_test_vector` unfolding at `tvC2`. -/
theorem c5_witness :
    (checkEpoch P0 1 tvC2.group_id 0 tvC2.initial_init_secret eC2 =
      match firstErr (mismatchChecks P0 1 tvC2.group_id 0 tvC2.initial_init_secret eC2) with
      | some er => .error er
      | none => .ok (computedInit P0 1 tvC2.group_id 0 tvC2.initial_init_secret eC2)) ∧
    (runEpochs P0 1 tvC2.group_id 0 tvC2.initial_init_secret tvC2.epochs = .ok () ↔
      allEpochsMatch P0 1 tvC2.group_id 0 tvC2.initial_init_secret tvC2.epochs) ∧
    (run_test_vector P0 tvC2 =
      match runEpochs P0 1 tvC2.group_id 0 tvC2.initial_init_secret tvC2.epochs with
      | .ok _ => RunResult.ok
      | .error er => RunResult.err er) :=
  ⟨c5_field_specific_errors.1 P0 1 tvC2.group_id 0 tvC2.initial_init_secret eC2,
    c5_field_specific_errors.2.1 P0 1 tvC2.group_id 0 tvC2.initial_init_secret tvC2.epochs,
    c5_field_specific_errors.2.2 P0 tvC2 1 (by decide) (by decide)⟩

/-- C6: for every epoch the generator synthesizes, the number of random PSKs
is the random u32 reduced modulo 0x10, hence between 0 and 15 inclusive. -/
theorem c6_psk_count_bound (P : Provider) (cs : Nat) (r : EpochRand)
    (init gid : Bytes) (ep : Nat) :
    (generate P cs r init gid ep).psks.length = r.pskCountRaw % 2 ^ 32 % 0x10 ∧
    (generate P cs r init gid ep).psks.length ≤ 15 := by
  have hlen : (generate P cs r init gid ep).psks.length =
      r.pskCountRaw % 2 ^ 32 % 0x10 := by
    simp [generate]
  refine ⟨hlen, ?_⟩
  rw [hlen]
  exact Nat.le_of_lt_succ (Nat.mod_lt _ (by norm_num))

/-- C7: determinism of the key-schedule pipeline.  First conjunct: the
`EpochSecrets` produced by `generate` depend on nothing but the init secret,
the commit secret, the PSK secret and the group context — two runs with
possibly different randomness and group data that agree on those four inputs
produce byte-identical bundles (in particular the interleaved `welcome` call
has no effect on them).  Second conjunct: the replay performed by
`run_test_vector` on a freshly generated epoch record recomputes exactly the
`EpochSecrets` the generator recorded. -/
theorem c7_pipeline_determinism :
    (∀ (P : Provider) (cs : Nat) (r1 r2 : EpochRand) (init1 init2 gid1 gid2 : Bytes)
        (i1 i2 : Nat),
      init1 = init2 →
      r1.commit_secret = r2.commit_secret →
      P.pskSecretNew cs ((List.range (r1.pskCountRaw % 2 ^ 32 % 0x10)).map r1.pskAt) =
        P.pskSecretNew cs ((List.range (r2.pskCountRaw % 2 ^ 32 % 0x10)).map r2.pskAt) →
      (⟨gid1, i1, r1.tree_hash, r1.confirmed_transcript_hash⟩ : GroupCtx) =
        (⟨gid2, i2, r2.tree_hash, r2.confirmed_transcript_hash⟩ : GroupCtx) →
      (generate P cs r1 init1 gid1 i1).epoch_secrets =
        (generate P cs r2 init2 gid2 i2).epoch_secrets) ∧
    (∀ (P : Provider) (cs : Nat) (gid : Bytes) (i : Nat) (init : Bytes)
        (r : EpochRand),
      computedES P cs gid i init (mkEpochTV P (generate P cs r init gid i)) =
        (generate P cs r init gid i).epoch_secrets) := by
  constructor
  · intro P cs r1 r2 init1 init2 gid1 gid2 i1 i2 h1 h2 h3 h4
    simp only [generate, KeySchedule.init, KeySchedule.add_context]
    rw [h1, h2, h3, h4]
  · intro P cs gid i init r
    simp [computedES, mkEpochTV, generate, computedJoiner, computedPsk, rebuiltCtx,
      KeySchedule.init, KeySchedule.add_context, epochSecretsOf]

/-- Witness for C7: `rEpA` and `rEpB` differ in their raw PSK draw (0 versus
16) and PSK streams but agree on the four inputs, and the replay of a
concrete generated record reproduces its epoch secrets. -/
theorem c7_witness :
    (generate P0 1 rEpA [9] [8] 0).epoch_secrets =
      (generate P0 1 rEpB [9] [8] 0).epoch_secrets ∧
    computedES P0 1 [8] 0 [9] (mkEpochTV P0 (generate P0 1 r0Epoch [9] [8] 0)) =
      (generate P0 1 r0Epoch [9] [8] 0).epoch_secrets :=
  ⟨c7_pipeline_determinism.1 P0 1 rEpA rEpB [9] [9] [8] [8] 0 0 rfl rfl (by decide) rfl,
    c7_pipeline_determinism.2 P0 1 [8] 0 [9] r0Epoch⟩

/-- C8: the tree validation error taxonomy defines every named validation
error the spec lists: `PublicKeyMismatch`, `DuplicateKeyPackage`,
`MissingKeyPackage`, `MalformedTree` and `InvalidParentHash` are exactly the
variants of the public tree error type (first two conjuncts: exhaustiveness
and pairwise distinctness), and `PathLengthError`, `MissingParentHash`,
`ParentHashMismatch`, `InvalidParentHash`, `BlankUnmergedLeaf` and
`NoPrivateKeyFound` are pairwise distinct variants of the TreeSync diff
error type (third conjunct). -/
theorem c8_error_taxonomy :
    (∀ e : PublicTreeError,
      e = .PublicKeyMismatch ∨ e = .DuplicateKeyPackage ∨ e = .MissingKeyPackage ∨
        e = .MalformedTree ∨ e = .InvalidParentHash) ∧
    ([PublicTreeError.PublicKeyMismatch, .DuplicateKeyPackage, .MissingKeyPackage,
        .MalformedTree, .InvalidParentHash] : List PublicTreeError).Nodup ∧
    ([TreeSyncDiffError.PathLengthError, .MissingParentHash, .ParentHashMismatch,
        .InvalidParentHash, .BlankUnmergedLeaf, .NoPrivateKeyFound] :
        List TreeSyncDiffError).Nodup :=
  ⟨fun e => by cases e <;> simp, by decide, by decide⟩

/-- C9: the display message of `TreeSyncError::KeyPackageRefNotInTree` is
the string "Found two KeyPackages with the same public key.", identical to
the display message of `PublicTreeError::DuplicateKeyPackage`, so the two
distinct variants cannot be told apart by message text. -/
theorem c9_duplicate_message :
    TreeSyncError.message .KeyPackageRefNotInTree =
      "Found two KeyPackages with the same public key." ∧
    TreeSyncError.message .KeyPackageRefNotInTree =
      PublicTreeError.message .DuplicateKeyPackage :=
  ⟨rfl, rfl⟩

/-- C10: verification rebuilds each epoch's group context with the epoch's
zero-based position in the vector's epochs list as the epoch counter and the
vector's single group id.  Hence if the epoch at position `pre.length` is
reached (every earlier epoch passes), its joiner and welcome secrets match,
but its recorded `group_context` is the serialisation of a context whose
epoch counter `k` differs from that position — with the codec injective in
the epoch counter — then `run_test_vector` fails that epoch with
`GroupContextMismatch`. -/
theorem c10_epoch_position (P : Provider) (tv : KeyScheduleTestVector)
    (name k : Nat) (pre post : List EpochTV) (e : EpochTV) (initj : Bytes)
    (hname : P.nameFromU16 tv.cipher_suite = some name)
    (hsupp : P.supported name = true)
    (heps : tv.epochs = pre ++ e :: post)
    (hpre : passInit P name tv.group_id 0 tv.initial_init_secret pre = some initj)
    (hjoin : e.joiner_secret = computedJoiner P name initj e)
    (hwel : e.welcome_secret = computedWelcome P name initj e)
    (hgc : e.group_context =
      P.ctxSerialize ⟨tv.group_id, k, e.tree_hash, e.confirmed_transcript_hash⟩)
    (hk : k ≠ pre.length)
    (hinj : ∀ a b : Nat,
      P.ctxSerialize ⟨tv.group_id, a, e.tree_hash, e.confirmed_transcript_hash⟩ =
        P.ctxSerialize ⟨tv.group_id, b, e.tree_hash, e.confirmed_transcript_hash⟩ →
      a = b) :
    run_test_vector P tv = .err .GroupContextMismatch := by
  have hgcne : e.group_context ≠ computedCtxSer P tv.group_id (0 + pre.length) e := by
    rw [hgc]
    intro hcon
    apply hk
    have := hinj k (0 + pre.length) hcon
    omega
  have hj : ¬(e.joiner_secret ≠ computedJoiner P name initj e) := by simp [hjoin]
  have hw : ¬(e.welcome_secret ≠ computedWelcome P name initj e) := by simp [hwel]
  have hfin : runEpochs P name tv.group_id 0 tv.initial_init_secret tv.epochs =
      .error .GroupContextMismatch := by
    rw [heps, runEpochs_append P name tv.group_id pre (e :: post) 0
      tv.initial_init_secret initj hpre, runEpochs]
    unfold checkEpoch
    rw [if_neg hj, if_neg hw, if_pos hgcne]
  simp [run_test_vector, hname, hsupp, hfin]

/-- Witness for C10: the single-epoch vector `tvC10`, whose recorded group
context was serialised with epoch counter 5 instead of 0, fails with
`GroupContextMismatch` although its joiner and welcome secrets match. -/
theorem c10_witness : run_test_vector P0 tvC10 = .err .GroupContextMismatch :=
  c10_epoch_position P0 tvC10 1 5 [] [] eC10 [9] (by decide) (by decide) rfl rfl
    (by decide) (by decide) (by decide) (by decide)
    (fun a b h => by simpa [P0, tvC10, eC10] using h)

end OpenMLS
